import Mathlib

/-!
Verification of the centralized passage controller
(`passage_gnn_simple/centralized_passage.py`).

The Python source is shallowly embedded over exact rational arithmetic
(`ℚ` in place of IEEE doubles; the numerical claims under scrutiny are
about the exact formulas, and every concrete scenario in the claims uses
dyadic rationals).  Stateful ROS plumbing is embedded as explicit data:

* `_current_states` is the association list `states` (a Python dict with
  distinct keys; theorems that need key uniqueness assume `Nodup`);
* `_vel_pubs` is the list of registered publisher keys;
* the opaque TorchScript policy `self.model` is an explicit function
  parameter of type `Model`;
* `torch.distributions.normal.Normal(mean, exp(log_std)).sample()` is
  embedded by reparameterization as `mean + rexp log_std * noise`, where
  `rexp` stands for the (strictly positive, but here uninterpreted)
  exponential and `noise` is a universally quantified draw of the
  standard normal, which has full support;
* `scipy` rotations `R.from_euler("z", 0.0)` and `R.from_euler("z", np.pi)`
  are embedded as the exact planar rotations by 0 and by pi (`Side`);
* a Python `IndexError` is embedded as `none` in an `Option` result;
* emitted `ReferenceState` messages are collected in a `published` list
  (the constant `yaw = pi/2` field carries no information and is dropped);
* the three invocation counters in `StepResult` record, operationally,
  how many times the tick entered the policy model, the action sampler
  and the dynamics filter (identically zero on the short-circuit path).
-/

namespace Passage

abbrev AgentId := String

/-- Pose as used from `start_poses` / `goal_poses`: only `position.x` and
`position.y` are ever read by the controller. -/
structure Pose where
  x : ℚ
  y : ℚ
deriving DecidableEq

/-- The `freyja_msgs` CurrentState message: the controller reads
`state_vector[0]`, `state_vector[1]` (world position) and
`state_vector[3]`, `state_vector[4]` (world velocity). -/
structure CurrentState where
  state_vector : List ℚ
deriving DecidableEq

/-- World position read out of a state message (`state_vector[0]`, `[1]`). -/
def statePos (s : CurrentState) : ℚ × ℚ :=
  (s.state_vector.getD 0 0, s.state_vector.getD 1 0)

/-- World velocity read out of a state message (`state_vector[3]`, `[4]`). -/
def stateVel (s : CurrentState) : ℚ × ℚ :=
  (s.state_vector.getD 3 0, s.state_vector.getD 4 0)

/-- Planar point of a pose. -/
def goalPt (g : Pose) : ℚ × ℚ :=
  (g.x, g.y)

/-- Shared embedding of `np.clip(x, lo, hi)` and `torch.clamp(x, lo, hi)`:
values below `lo` become `lo`, values above `hi` become `hi` (when
`lo > hi` both libraries return `hi`, as does `min hi (max lo x)`). -/
def clip (x lo hi : ℚ) : ℚ :=
  min hi (max lo x)

/-- The two values `self._current_side` can take:
`R.from_euler("z", 0.0)` (identity) and `R.from_euler("z", np.pi)`
(rotation by pi about the vertical axis). -/
inductive Side where
  | identity
  | rot180
deriving DecidableEq

/-- Embedding of `scipy` `Rotation.apply` on a 3-vector for the two
rotations at hand, in exact arithmetic: the rotation by pi about z sends
`(x, y, z)` to `(-x, -y, z)`; the identity leaves the vector unchanged. -/
def Side.apply : Side → ℚ × ℚ × ℚ → ℚ × ℚ × ℚ
  | .identity, v => v
  | .rot180, (x, y, z) => (-x, -y, z)

/-- The idiom `side.apply([x, y, 0.0])[:2]` used throughout `step`:
lift a planar vector with a zero third component, rotate, keep the
planar components. -/
def Side.apply2 (s : Side) (p : ℚ × ℚ) : ℚ × ℚ :=
  ((s.apply (p.1, p.2, 0)).1, (s.apply (p.1, p.2, 0)).2.1)

/-- Embedding of `update_current_side`: the reference value is
`list(self.start_poses.values())[0].position.y`, passed here as the first
start pose; both branches overwrite `self._current_side`. -/
def update_current_side (firstStart : Pose) : Side :=
  if firstStart.y > 0 then .rot180 else .identity

/-- One planar axis of the body of `action_constrain_vel_acc`, with the
local constant `f = 4.0` of the source generalized to a parameter (the
source applies the same five lines componentwise through numpy
broadcasting):

    clipped_v  = np.clip(action, -max_v, max_v)
    desired_a  = (clipped_v - velocity) / (1 / f)
    possible_a = np.clip(desired_a, -max_a, max_a)
    possible_v = velocity + possible_a * (1 / f)
    return np.clip(possible_v, -max_v, max_v)
-/
def dyn_filter_axis (f max_v max_a action velocity : ℚ) : ℚ :=
  let clipped_v := clip action (-max_v) max_v
  let desired_a := (clipped_v - velocity) / (1 / f)
  let possible_a := clip desired_a (-max_a) max_a
  let possible_v := velocity + possible_a * (1 / f)
  clip possible_v (-max_v) max_v

/-- Embedding of `action_constrain_vel_acc(self, action, velocity)`:
the source fixes `f = 4.0` and runs the filter on both planar axes
independently (numpy elementwise arithmetic on length-2 arrays). -/
def action_constrain_vel_acc (max_v max_a : ℚ) (action velocity : ℚ × ℚ) : ℚ × ℚ :=
  (dyn_filter_axis 4 max_v max_a action.1 velocity.1,
   dyn_filter_axis 4 max_v max_a action.2 velocity.2)

/-- Embedding of `sample_action_from_logit(self, logit)`.
`torch.chunk(logit, 2, dim=1)` splits the logit row into a first chunk of
`ceil(w / 2)` entries (the mean) and the remaining entries (the log std);
the draw from `Normal(mean, exp(log_std))` is `mean + exp(log_std) * noise`
with `noise` a standard-normal draw, and the result is clamped by
`torch.clamp(action, -max_v, max_v)`. -/
def sample_action_from_logit (rexp : ℚ → ℚ) (max_v : ℚ) (logit noise : List ℚ) : List ℚ :=
  let n := (logit.length + 1) / 2
  let mean := logit.take n
  let log_std := logit.drop n
  let action := (mean.zip (log_std.zip noise)).map fun m => m.1 + rexp m.2.1 * m.2.2
  action.map fun a => clip a (-max_v) max_v

/-- The observation dictionary built by `step` (the singleton batch
dimension `[0]` of the source is dropped): three agent-indexed lists of
planar vectors in the canonical frame. -/
structure Obs where
  pos : List (ℚ × ℚ)
  vel : List (ℚ × ℚ)
  goal : List (ℚ × ℚ)
deriving DecidableEq

/-- The opaque policy boundary `self.model(positions, features, comm_range)`:
agent-indexed canonical positions, agent-indexed feature rows, the scalar
communication range; returns agent-indexed logit rows. -/
abbrev Model := List (ℚ × ℚ) → List (List ℚ) → ℚ → List (List ℚ)

/-- Embedding of the feature construction in `run_model`:
`torch.cat([obs["goal"] - obs["pos"], obs["pos"], obs["pos"] + obs["vel"]], dim=2)`
concatenates, per agent row, the three planar vectors into one 6-vector. -/
def obsFeatures (o : Obs) : List (List ℚ) :=
  (o.goal.zip (o.pos.zip o.vel)).map fun gpv =>
    [gpv.1.1 - gpv.2.1.1, gpv.1.2 - gpv.2.1.2,
     gpv.2.1.1, gpv.2.1.2,
     gpv.2.1.1 + gpv.2.2.1, gpv.2.1.2 + gpv.2.2.2]

/-- The sampling loop of `run_model`: one `sample_action_from_logit` call
per logit column `i`, each with its own noise draw. -/
def sample_actions (rexp : ℚ → ℚ) (max_v : ℚ) (noise : ℕ → List ℚ) :
    ℕ → List (List ℚ) → List (List ℚ)
  | _, [] => []
  | i, l :: rest =>
      sample_action_from_logit rexp max_v l (noise i) ::
        sample_actions rexp max_v noise (i + 1) rest

/-- Embedding of `run_model(self, obs)`: build the feature tensor, invoke
the opaque model on `(positions, features, comm_range)`, then sample one
action per returned logit column.  The second component records how many
times the sampler was entered (`logits.shape[1]` iterations). -/
def run_model (model : Model) (rexp : ℚ → ℚ) (comm_range max_v : ℚ)
    (noise : ℕ → List ℚ) (o : Obs) : List (List ℚ) × ℕ :=
  let x := obsFeatures o
  let logits := model o.pos x comm_range
  (sample_actions rexp max_v noise 0 logits, logits.length)

/-- Embedding of the observation-building loop of `step`: iterate the
controllable agents in order; an agent whose uuid is not a key of
`_current_states` is skipped entirely (`continue`); otherwise its goal,
position and velocity are rotated into the canonical frame and appended
to the three lists at the same index. -/
def build_obs (side : Side) (controllable : List AgentId)
    (states : List (AgentId × CurrentState)) (goals : AgentId → Pose) : Obs :=
  match controllable with
  | [] => ⟨[], [], []⟩
  | u :: rest =>
      let o := build_obs side rest states goals
      match List.lookup u states with
      | none => o
      | some s =>
          ⟨Side.apply2 side (statePos s) :: o.pos,
           Side.apply2 side (stateVel s) :: o.vel,
           Side.apply2 side (goalPt (goals u)) :: o.goal⟩

/-- Embedding of `np.linalg.norm(pos - goal) < d` without square roots:
for a Euclidean norm the comparison holds exactly when `d` is positive
and the squared distance is below `d * d` (`dist_lt_iff_sqrt` below
proves the equivalence against `Real.sqrt`). -/
def dist_lt (p g : ℚ × ℚ) (d : ℚ) : Bool :=
  decide (0 < d ∧ (p.1 - g.1) * (p.1 - g.1) + (p.2 - g.2) * (p.2 - g.2) < d * d)

/-- Embedding of the done-flag loop of `step`: for each requested agent,
in order, read `obs["pos"][0][i]` and `obs["goal"][0][i]` and compare the
distance against the threshold; an out-of-range index is a Python
`IndexError`, embedded as `none` for the whole loop. -/
def dones_loop (d : ℚ) (pos goal : List (ℚ × ℚ)) :
    ℕ → List AgentId → Option (List (AgentId × Bool))
  | _, [] => some []
  | i, a :: rest =>
      match pos[i]?, goal[i]? with
      | some p, some g =>
          (dones_loop d pos goal (i + 1) rest).map fun ds => (a, dist_lt p g d) :: ds
      | _, _ => none

/-- Embedding of `update_pubs_and_subs`: register a publisher (and
subscription) for every controllable uuid that does not have one yet;
idempotent on already-registered uuids. -/
def update_pubs_and_subs (vel_pubs : List AgentId) (controllable : List AgentId) :
    List AgentId :=
  controllable.foldl (fun ps u => if u ∈ ps then ps else ps ++ [u]) vel_pubs

/-- The declared ROS parameters read by the control path, with their
source defaults `comm_range = 2.0`, `max_v = 1.5`, `max_a = 1.0`,
`goal_reached_dist = 0.25`. -/
structure Config where
  comm_range : ℚ
  max_v : ℚ
  max_a : ℚ
  goal_reached_dist : ℚ
deriving DecidableEq

/-- Everything one `step` call produces or mutates: the side stored in
`self._current_side`, the updated publisher registry, the published
`(vn, ve)` commands in order, the returned done dictionary (or `none`
for an uncaught `IndexError`), and how many times the policy model, the
action sampler and the dynamics filter were entered. -/
structure StepResult where
  side : Side
  vel_pubs : List AgentId
  published : List (AgentId × (ℚ × ℚ))
  dones : Option (List (AgentId × Bool))
  modelCalls : ℕ
  samplerCalls : ℕ
  filterCalls : ℕ
deriving DecidableEq

/-- Embedding of `step(self, controllable_agents, state_dict)` (the
`state_dict` argument is unused by the source body and omitted).
`prev_side` is the `_current_side` field at entry; it is unconditionally
overwritten by `update_current_side` before any use.  The guard compares
the total number of recorded states — whatever their keys — against the
number of requested agents and short-circuits to an all-false done
dictionary.  Otherwise the observation is built (silently skipping
unknown agents), the policy runs, each zipped `(uuid, action, velocity)`
row with a registered publisher is filtered and emitted rotated back to
the world frame, and the done flags are recomputed by index over the
full controllable list. -/
def step (model : Model) (rexp : ℚ → ℚ) (noise : ℕ → List ℚ) (cfg : Config)
    (firstStart : Pose) (goals : AgentId → Pose)
    (vel_pubs : List AgentId) (states : List (AgentId × CurrentState))
    (prev_side : Side) (controllable : List AgentId) : StepResult :=
  let pubs := update_pubs_and_subs vel_pubs controllable
  let side := update_current_side firstStart
  if states.length ≠ controllable.length then
    { side := side, vel_pubs := pubs, published := [],
      dones := some (controllable.map fun a => (a, false)),
      modelCalls := 0, samplerCalls := 0, filterCalls := 0 }
  else
    let o := build_obs side controllable states goals
    let ms := run_model model rexp cfg.comm_range cfg.max_v noise o
    let rows := controllable.zip (ms.1.zip o.vel)
    let prows := rows.filter fun r => r.1 ∈ pubs
    { side := side, vel_pubs := pubs,
      published := prows.map fun r =>
        (r.1, Side.apply2 side (action_constrain_vel_acc cfg.max_v cfg.max_a
          (r.2.1.getD 0 0, r.2.1.getD 1 0) r.2.2)),
      dones := dones_loop cfg.goal_reached_dist o.pos o.goal 0 controllable,
      modelCalls := 1, samplerCalls := ms.2, filterCalls := prows.length }

/-- The world-frame done flag of one agent on the current tick: distance
from its recorded world position to its world goal below the threshold
(`false` if it has no recorded state, a case excluded by the hypotheses
of the theorems that use this). -/
def worldDone (states : List (AgentId × CurrentState)) (goals : AgentId → Pose)
    (d : ℚ) (u : AgentId) : Bool :=
  match List.lookup u states with
  | some s => dist_lt (statePos s) (goalPt (goals u)) d
  | none => false

/-- The controllable agents that have a recorded state, in request order:
exactly the agents the observation loop keeps. -/
def knownOf (states : List (AgentId × CurrentState)) (controllable : List AgentId) :
    List AgentId :=
  controllable.filter fun u => (List.lookup u states).isSome

/-- Canonical-frame position entry the observation loop appends for a
known agent. -/
def posEntry (side : Side) (states : List (AgentId × CurrentState)) (u : AgentId) : ℚ × ℚ :=
  Side.apply2 side (statePos ((List.lookup u states).getD ⟨[]⟩))

/-- Canonical-frame velocity entry the observation loop appends for a
known agent. -/
def velEntry (side : Side) (states : List (AgentId × CurrentState)) (u : AgentId) : ℚ × ℚ :=
  Side.apply2 side (stateVel ((List.lookup u states).getD ⟨[]⟩))

/-- Canonical-frame goal entry the observation loop appends for a known
agent. -/
def goalEntry (side : Side) (goals : AgentId → Pose) (u : AgentId) : ℚ × ℚ :=
  Side.apply2 side (goalPt (goals u))

/-! Helper lemmas about `clip`. -/

lemma clip_le_hi (x lo hi : ℚ) : clip x lo hi ≤ hi :=
  min_le_left _ _

lemma lo_le_clip (x : ℚ) {lo hi : ℚ} (h : lo ≤ hi) : lo ≤ clip x lo hi :=
  le_min h (le_max_left _ _)

lemma abs_clip_le {m : ℚ} (x : ℚ) (hm : 0 ≤ m) : |clip x (-m) m| ≤ m :=
  abs_le.2 ⟨lo_le_clip x (neg_le_self hm), clip_le_hi x _ _⟩

/-- Clipping to an interval that contains `c` cannot move a value away
from `c`. -/
lemma abs_clip_sub_le {lo hi c : ℚ} (x : ℚ) (hlo : lo ≤ c) (hhi : c ≤ hi) :
    |clip x lo hi - c| ≤ |x - c| := by
  unfold clip
  rcases le_total x lo with h1 | h1
  · rw [max_eq_left h1, min_eq_right (hlo.trans hhi)]
    rw [abs_of_nonpos (by linarith), abs_of_nonpos (by linarith)]
    linarith
  · rw [max_eq_right h1]
    rcases le_total x hi with h2 | h2
    · rw [min_eq_right h2]
    · rw [min_eq_left h2]
      rw [abs_of_nonneg (by linarith), abs_of_nonneg (by linarith)]
      linarith

/-! Helper lemmas about the frame rotation. -/

lemma apply2_apply2 (s : Side) (p : ℚ × ℚ) : s.apply2 (s.apply2 p) = p := by
  cases s <;> simp [Side.apply2, Side.apply]

/-- Both canonical-frame rotations preserve the squared planar distance,
hence the done-flag comparison. -/
lemma dist_lt_apply2 (s : Side) (p g : ℚ × ℚ) (d : ℚ) :
    dist_lt (s.apply2 p) (s.apply2 g) d = dist_lt p g d := by
  cases s
  · rfl
  · simp only [dist_lt, Side.apply2, Side.apply]
    ring_nf

/-- The boolean distance test agrees with the real Euclidean norm
comparison computed by `np.linalg.norm`. -/
lemma dist_lt_iff_sqrt (p g : ℚ × ℚ) (d : ℚ) :
    dist_lt p g d = true ↔
      Real.sqrt (((p.1 : ℝ) - (g.1 : ℝ)) ^ 2 + ((p.2 : ℝ) - (g.2 : ℝ)) ^ 2) < (d : ℝ) := by
  have hcast : ((p.1 : ℝ) - (g.1 : ℝ)) ^ 2 + ((p.2 : ℝ) - (g.2 : ℝ)) ^ 2
      = (((p.1 - g.1) * (p.1 - g.1) + (p.2 - g.2) * (p.2 - g.2) : ℚ) : ℝ) := by
    push_cast
    ring
  have hcast2 : ((d : ℝ)) ^ 2 = ((d * d : ℚ) : ℝ) := by
    push_cast
    ring
  rw [dist_lt, decide_eq_true_iff]
  constructor
  · rintro ⟨hd, hlt⟩
    rw [Real.sqrt_lt' (by exact_mod_cast hd), hcast, hcast2]
    exact_mod_cast hlt
  · intro h
    have hd : (0 : ℝ) < (d : ℝ) := lt_of_le_of_lt (Real.sqrt_nonneg _) h
    rw [Real.sqrt_lt' hd, hcast, hcast2] at h
    exact ⟨by exact_mod_cast hd, by exact_mod_cast h⟩

/-- C4: for every frame transform `t` produced by the FrameNormalizer
(identity or the 180-degree rotation about the vertical axis) and every
vector `v`, applying `t` twice returns `v` — so inverting by re-applying
the same rotation, as the code does, is correct — and only the planar
components are transformed (the third component passes through). -/
theorem C4_frame_self_inverse :
    (∀ (t : Side) (v : ℚ × ℚ × ℚ), t.apply (t.apply v) = v ∧ (t.apply v).2.2 = v.2.2)
    ∧ (∀ p : Pose, update_current_side p = Side.identity ∨
        update_current_side p = Side.rot180) := by
  constructor
  · intro t v
    cases t <;> rcases v with ⟨a, b, c⟩ <;> simp [Side.apply]
  · intro p
    unfold update_current_side
    split
    · exact Or.inr rfl
    · exact Or.inl rfl

/-- C7: on every tick the frame transform stored and used by `step` is
recomputed from scratch as a pure function of the sign of the reference
start-position y coordinate — whatever `_current_side` held before the
tick — and under the 180-degree transform the world position `(1, 1)`
maps to canonical `(-1, -1)` and back to `(1, 1)` exactly. -/
theorem C7_side_recomputed_each_tick (model : Model) (rexp : ℚ → ℚ)
    (noise : ℕ → List ℚ) (cfg : Config) (firstStart : Pose) (goals : AgentId → Pose)
    (vel_pubs : List AgentId) (states : List (AgentId × CurrentState))
    (prev_side : Side) (controllable : List AgentId) :
    (step model rexp noise cfg firstStart goals vel_pubs states prev_side
        controllable).side
      = (if firstStart.y > 0 then Side.rot180 else Side.identity)
    ∧ Side.apply2 Side.rot180 (1, 1) = (-1, -1)
    ∧ Side.apply2 Side.rot180 (Side.apply2 Side.rot180 (1, 1)) = (1, 1) := by
  refine ⟨?_, by decide, by decide⟩
  unfold step update_current_side
  split <;> split <;> rfl

/-- C1 (amended): on each planar axis independently, the dynamics filter
returns `clip(v_cur + clip((clip(v_raw) - v_cur) * f) / f)` and its
output is velocity-bounded; the one-step reachability bound
`|output - v_cur| <= maxA / f` holds under the additional hypothesis
`|v_cur| <= maxV`, which the original claim omits; the source fixes
`f = 4`; and the reference scenario yields `(1/4, 0)`. -/
theorem C1_dyn_filter_formula_and_bounds (f max_v max_a vraw vcur : ℚ)
    (hf : 0 < f) (hv : 0 < max_v) (ha : 0 < max_a) :
    dyn_filter_axis f max_v max_a vraw vcur
      = clip (vcur + clip ((clip vraw (-max_v) max_v - vcur) * f) (-max_a) max_a / f)
          (-max_v) max_v
    ∧ |dyn_filter_axis f max_v max_a vraw vcur| ≤ max_v
    ∧ (|vcur| ≤ max_v → |dyn_filter_axis f max_v max_a vraw vcur - vcur| ≤ max_a / f)
    ∧ (∀ a v : ℚ × ℚ, action_constrain_vel_acc max_v max_a a v
        = (dyn_filter_axis 4 max_v max_a a.1 v.1, dyn_filter_axis 4 max_v max_a a.2 v.2))
    ∧ action_constrain_vel_acc (3 / 2) 1 (10, 0) (0, 0) = (1 / 4, 0) := by
  refine ⟨?_, ?_, ?_, fun a v => rfl, by
    norm_num [action_constrain_vel_acc, dyn_filter_axis, clip, min_def, max_def]⟩
  · simp only [dyn_filter_axis]
    rw [div_div_eq_mul_div, div_one, mul_one_div]
  · exact abs_clip_le _ hv.le
  · intro hvc
    have hbounds := abs_le.mp hvc
    have h1 : |dyn_filter_axis f max_v max_a vraw vcur - vcur|
        ≤ |(vcur + clip ((clip vraw (-max_v) max_v - vcur) / (1 / f)) (-max_a) max_a
              * (1 / f)) - vcur| := by
      unfold dyn_filter_axis
      exact abs_clip_sub_le _ hbounds.1 hbounds.2
    have h2 : (vcur + clip ((clip vraw (-max_v) max_v - vcur) / (1 / f)) (-max_a) max_a
          * (1 / f)) - vcur
        = clip ((clip vraw (-max_v) max_v - vcur) / (1 / f)) (-max_a) max_a * (1 / f) := by
      ring
    rw [h2] at h1
    have h3 : |clip ((clip vraw (-max_v) max_v - vcur) / (1 / f)) (-max_a) max_a * (1 / f)|
        ≤ max_a * (1 / f) := by
      rw [abs_mul, abs_of_pos (by positivity : (0 : ℚ) < 1 / f)]
      exact mul_le_mul_of_nonneg_right (abs_clip_le _ ha.le) (by positivity)
    calc |dyn_filter_axis f max_v max_a vraw vcur - vcur|
        ≤ max_a * (1 / f) := h1.trans h3
      _ = max_a / f := by ring

/-- C1 counterexample: at `v_cur = (2, 0)`, `v_raw = (0, 0)`,
`maxV = 3/2`, `maxA = 1` and the source frequency `f = 4`, the filter
output is `3/2` on the first axis and `|3/2 - 2| = 1/2 > 1/4 = maxA / f`,
so the unconditional reachability bound of the claim is false. -/
theorem C1_cx :
    ¬ (|(action_constrain_vel_acc (3 / 2) 1 (0, 0) (2, 0)).1 - 2| ≤ 1 / 4) := by
  have h : (action_constrain_vel_acc (3 / 2) 1 (0, 0) (2, 0)).1 = 3 / 2 := by
    norm_num [action_constrain_vel_acc, dyn_filter_axis, clip, min_def, max_def]
  rw [h, show (3 : ℚ) / 2 - 2 = -(1 / 2) by norm_num, abs_neg,
    abs_of_pos (by norm_num : (0 : ℚ) < 1 / 2)]
  norm_num

/-- C1 witness at the reference scenario. -/
theorem C1_witness :
    (0 : ℚ) < 4 ∧ (0 : ℚ) < 3 / 2 ∧ (0 : ℚ) < 1 ∧
      (dyn_filter_axis 4 (3 / 2) 1 10 0
        = clip (0 + clip ((clip 10 (-(3 / 2)) (3 / 2) - 0) * 4) (-1) 1 / 4)
            (-(3 / 2)) (3 / 2)
      ∧ |dyn_filter_axis 4 (3 / 2) 1 10 0| ≤ 3 / 2
      ∧ (|(0 : ℚ)| ≤ 3 / 2 → |dyn_filter_axis 4 (3 / 2) 1 10 0 - 0| ≤ 1 / 4)
      ∧ (∀ a v : ℚ × ℚ, action_constrain_vel_acc (3 / 2) 1 a v
          = (dyn_filter_axis 4 (3 / 2) 1 a.1 v.1, dyn_filter_axis 4 (3 / 2) 1 a.2 v.2))
      ∧ action_constrain_vel_acc (3 / 2) 1 (10, 0) (0, 0) = (1 / 4, 0)) :=
  ⟨by norm_num, by norm_num, by norm_num,
    C1_dyn_filter_formula_and_bounds 4 (3 / 2) 1 10 0 (by norm_num) (by norm_num)
      (by norm_num)⟩

/-- C6 (amended): the control frequency used by the dynamics filter is
the hardcoded constant `4.0` inside `action_constrain_vel_acc`, not a
configuration value: the output is always the `f = 4` instance of the
filter formula, and a different frequency would give a different output. -/
theorem C6_frequency_hardcoded :
    (∀ (max_v max_a : ℚ) (a v : ℚ × ℚ),
      action_constrain_vel_acc max_v max_a a v
        = (dyn_filter_axis 4 max_v max_a a.1 v.1, dyn_filter_axis 4 max_v max_a a.2 v.2))
    ∧ dyn_filter_axis 8 (3 / 2) 1 10 0 ≠ dyn_filter_axis 4 (3 / 2) 1 10 0 :=
  ⟨fun _ _ _ _ => rfl, by
    norm_num [dyn_filter_axis, clip, min_def, max_def]⟩

/-- C6 counterexample: with the configuration `f = 8` the claimed
formula gives `(1/8, 0)`, but the code returns its hardcoded `f = 4`
result `(1/4, 0)`, so the filter does not use a configured frequency. -/
theorem C6_cx :
    ¬ (action_constrain_vel_acc (3 / 2) 1 (10, 0) (0, 0)
        = (dyn_filter_axis 8 (3 / 2) 1 10 0, dyn_filter_axis 8 (3 / 2) 1 0 0)) := by
  norm_num [action_constrain_vel_acc, dyn_filter_axis, clip, min_def, max_def]

/-- Structural characterization of the observation loop: each of the
three lists is the image of the known controllable agents (in request
order) under the corresponding canonical-frame entry function. -/
lemma build_obs_eq (side : Side) (states : List (AgentId × CurrentState))
    (goals : AgentId → Pose) :
    ∀ controllable : List AgentId,
      build_obs side controllable states goals =
        ⟨(knownOf states controllable).map (posEntry side states),
         (knownOf states controllable).map (velEntry side states),
         (knownOf states controllable).map (goalEntry side goals)⟩ := by
  intro controllable
  induction controllable with
  | nil => rfl
  | cons u rest ih =>
    simp only [build_obs, knownOf, List.filter_cons] at ih ⊢
    cases h : List.lookup u states with
    | none => simp [h, ih]
    | some s => simp [h, ih, posEntry, velEntry, goalEntry]

/-- C5: on every tick that reaches observation building, the three
observation sequences are images of one and the same list — the
controllable agents with a known state, in request order — so they have
identical length (never more than the number of known controllable
agents, itself at most the number requested), identical per-index agent
correspondence, and an agent without a known state is excluded from all
three simultaneously. -/
theorem C5_observation_invariant (side : Side) (states : List (AgentId × CurrentState))
    (goals : AgentId → Pose) (controllable : List AgentId) :
    (build_obs side controllable states goals).pos
        = (knownOf states controllable).map (posEntry side states)
    ∧ (build_obs side controllable states goals).vel
        = (knownOf states controllable).map (velEntry side states)
    ∧ (build_obs side controllable states goals).goal
        = (knownOf states controllable).map (goalEntry side goals)
    ∧ (build_obs side controllable states goals).pos.length
        = (knownOf states controllable).length
    ∧ (build_obs side controllable states goals).vel.length
        = (knownOf states controllable).length
    ∧ (build_obs side controllable states goals).goal.length
        = (knownOf states controllable).length
    ∧ (knownOf states controllable).length ≤ controllable.length := by
  rw [build_obs_eq]
  exact ⟨rfl, rfl, rfl, by simp, by simp, by simp, List.length_filter_le _ _⟩

/-- Key membership characterizes a successful dictionary access on an
association list. -/
lemma lookup_isSome_iff (u : AgentId) :
    ∀ states : List (AgentId × CurrentState),
      (List.lookup u states).isSome = true ↔ u ∈ states.map Prod.fst := by
  intro states
  induction states with
  | nil => simp
  | cons p rest ih =>
    obtain ⟨k, v⟩ := p
    rw [List.lookup_cons]
    by_cases h : u = k
    · subst h
      simp
    · have hbeq : (u == k) = false := beq_eq_false_iff_ne.mpr h
      simp [hbeq, ih, h]

/-- Unfolding of the short-circuit branch of `step`. -/
lemma step_short_circuit (model : Model) (rexp : ℚ → ℚ) (noise : ℕ → List ℚ)
    (cfg : Config) (firstStart : Pose) (goals : AgentId → Pose)
    (vel_pubs : List AgentId) (states : List (AgentId × CurrentState))
    (prev_side : Side) (controllable : List AgentId)
    (h : states.length ≠ controllable.length) :
    step model rexp noise cfg firstStart goals vel_pubs states prev_side controllable =
      { side := update_current_side firstStart,
        vel_pubs := update_pubs_and_subs vel_pubs controllable,
        published := [],
        dones := some (controllable.map fun a => (a, false)),
        modelCalls := 0, samplerCalls := 0, filterCalls := 0 } := by
  simp only [step]
  rw [if_pos h]

/-- Unfolding of the main branch of `step`. -/
lemma step_main (model : Model) (rexp : ℚ → ℚ) (noise : ℕ → List ℚ)
    (cfg : Config) (firstStart : Pose) (goals : AgentId → Pose)
    (vel_pubs : List AgentId) (states : List (AgentId × CurrentState))
    (prev_side : Side) (controllable : List AgentId)
    (h : states.length = controllable.length) :
    step model rexp noise cfg firstStart goals vel_pubs states prev_side controllable =
      { side := update_current_side firstStart,
        vel_pubs := update_pubs_and_subs vel_pubs controllable,
        published :=
          ((controllable.zip
              ((run_model model rexp cfg.comm_range cfg.max_v noise
                  (build_obs (update_current_side firstStart) controllable states
                    goals)).1.zip
                (build_obs (update_current_side firstStart) controllable states
                  goals).vel)).filter fun r =>
                r.1 ∈ update_pubs_and_subs vel_pubs controllable).map fun r =>
            (r.1, Side.apply2 (update_current_side firstStart)
              (action_constrain_vel_acc cfg.max_v cfg.max_a
                (r.2.1.getD 0 0, r.2.1.getD 1 0) r.2.2)),
        dones := dones_loop cfg.goal_reached_dist
          (build_obs (update_current_side firstStart) controllable states goals).pos
          (build_obs (update_current_side firstStart) controllable states goals).goal
          0 controllable,
        modelCalls := 1,
        samplerCalls := (run_model model rexp cfg.comm_range cfg.max_v noise
          (build_obs (update_current_side firstStart) controllable states goals)).2,
        filterCalls :=
          ((controllable.zip
              ((run_model model rexp cfg.comm_range cfg.max_v noise
                  (build_obs (update_current_side firstStart) controllable states
                    goals)).1.zip
                (build_obs (update_current_side firstStart) controllable states
                  goals).vel)).filter fun r =>
                r.1 ∈ update_pubs_and_subs vel_pubs controllable).length } := by
  simp only [step]
  rw [if_neg (by simpa using h)]

/-- C2: when the set of recorded-state agents is a strict subset of the
requested controllable agents, `step` short-circuits: it returns
`done = false` for every requested agent, publishes nothing, and enters
neither the policy model nor the action sampler nor the dynamics filter
on that tick. -/
theorem C2_strict_subset_short_circuit (model : Model) (rexp : ℚ → ℚ)
    (noise : ℕ → List ℚ) (cfg : Config) (firstStart : Pose) (goals : AgentId → Pose)
    (vel_pubs : List AgentId) (states : List (AgentId × CurrentState))
    (prev_side : Side) (controllable : List AgentId)
    (hks : (states.map Prod.fst).Nodup)
    (hsub : (states.map Prod.fst).toFinset ⊂ controllable.toFinset) :
    (step model rexp noise cfg firstStart goals vel_pubs states prev_side
        controllable).dones = some (controllable.map fun a => (a, false))
    ∧ (step model rexp noise cfg firstStart goals vel_pubs states prev_side
        controllable).published = []
    ∧ (step model rexp noise cfg firstStart goals vel_pubs states prev_side
        controllable).modelCalls = 0
    ∧ (step model rexp noise cfg firstStart goals vel_pubs states prev_side
        controllable).samplerCalls = 0
    ∧ (step model rexp noise cfg firstStart goals vel_pubs states prev_side
        controllable).filterCalls = 0 := by
  have h1 : (states.map Prod.fst).toFinset.card = states.length := by
    rw [List.toFinset_card_of_nodup hks, List.length_map]
  have h2 := Finset.card_lt_card hsub
  have h3 := List.toFinset_card_le (l := controllable)
  have hne : states.length ≠ controllable.length := by omega
  rw [step_short_circuit model rexp noise cfg firstStart goals vel_pubs states
    prev_side controllable hne]
  exact ⟨rfl, rfl, rfl, rfl, rfl⟩

/-- When the position and goal lists hold, at the shifted indices, the
images of the agent list under fixed entry functions, the done loop
succeeds and returns the per-agent distance tests. -/
lemma dones_loop_map (d : ℚ) (pf gf : AgentId → ℚ × ℚ) :
    ∀ (agents : List AgentId) (pos goal : List (ℚ × ℚ)) (i : ℕ),
      (∀ j u, agents[j]? = some u → pos[i + j]? = some (pf u)) →
      (∀ j u, agents[j]? = some u → goal[i + j]? = some (gf u)) →
      dones_loop d pos goal i agents
        = some (agents.map fun u => (u, dist_lt (pf u) (gf u) d)) := by
  intro agents
  induction agents with
  | nil =>
    intro pos goal i _ _
    rfl
  | cons a rest ih =>
    intro pos goal i hp hg
    have hpa := hp 0 a (by simp)
    have hga := hg 0 a (by simp)
    rw [Nat.add_zero] at hpa hga
    simp only [dones_loop, hpa, hga]
    rw [ih pos goal (i + 1) ?_ ?_]
    · simp
    · intro j u hj
      have hstep := hp (j + 1) u (by simpa using hj)
      rwa [show i + (j + 1) = i + 1 + j by omega] at hstep
    · intro j u hj
      have hstep := hg (j + 1) u (by simpa using hj)
      rwa [show i + (j + 1) = i + 1 + j by omega] at hstep

/-- When the agent list outruns the position list, the done loop hits an
out-of-range index and fails. -/
lemma dones_loop_none (d : ℚ) (pos goal : List (ℚ × ℚ)) :
    ∀ (agents : List AgentId) (i : ℕ), agents ≠ [] →
      pos.length < i + agents.length →
      dones_loop d pos goal i agents = none := by
  intro agents
  induction agents with
  | nil =>
    intro i h _
    exact absurd rfl h
  | cons a rest ih =>
    intro i _ hlen
    cases hp : pos[i]? with
    | none => simp [dones_loop, hp]
    | some p =>
      have hi : i < pos.length := by
        rcases List.getElem?_eq_some_iff.mp hp with ⟨h, _⟩
        exact h
      cases hg : goal[i]? with
      | none => simp [dones_loop, hp, hg]
      | some g =>
        rcases eq_or_ne rest [] with hr | hr
        · subst hr
          simp only [List.length_cons, List.length_nil] at hlen
          omega
        · have hrec := ih (i + 1) hr (by
            simp only [List.length_cons] at hlen
            omega)
          simp [dones_loop, hp, hg, hrec]

/-- C3: on a tick that is not short-circuited and where every requested
agent has a recorded state, the returned done flag of each requested
agent is exactly the current-tick comparison
`distance(worldPosition, worldGoal) < goalReachedDistance` — the rotation
into the canonical frame preserves the distance — computed from this
tick's recorded position and goal alone (the `step` inputs contain no
earlier done value at all), and the boolean test agrees with the real
Euclidean norm comparison. -/
theorem C3_done_flags (model : Model) (rexp : ℚ → ℚ) (noise : ℕ → List ℚ)
    (cfg : Config) (firstStart : Pose) (goals : AgentId → Pose)
    (vel_pubs : List AgentId) (states : List (AgentId × CurrentState))
    (prev_side : Side) (controllable : List AgentId)
    (hlen : states.length = controllable.length)
    (hall : ∀ u ∈ controllable, (List.lookup u states).isSome = true) :
    (step model rexp noise cfg firstStart goals vel_pubs states prev_side
        controllable).dones
      = some (controllable.map fun u =>
          (u, worldDone states goals cfg.goal_reached_dist u))
    ∧ (∀ (p g : ℚ × ℚ) (d : ℚ), dist_lt p g d = true ↔
        Real.sqrt (((p.1 : ℝ) - (g.1 : ℝ)) ^ 2 + ((p.2 : ℝ) - (g.2 : ℝ)) ^ 2)
          < (d : ℝ)) := by
  refine ⟨?_, fun p g d => dist_lt_iff_sqrt p g d⟩
  rw [step_main model rexp noise cfg firstStart goals vel_pubs states prev_side
    controllable hlen]
  rw [build_obs_eq (update_current_side firstStart) states goals controllable]
  have hknown : knownOf states controllable = controllable := by
    unfold knownOf
    exact List.filter_eq_self.mpr (by intro u hu; simpa using hall u hu)
  rw [hknown]
  rw [dones_loop_map cfg.goal_reached_dist (posEntry (update_current_side firstStart) states)
    (goalEntry (update_current_side firstStart) goals) controllable _ _ 0
    (by intro j u hj; simpa using congrArg (Option.map
      (posEntry (update_current_side firstStart) states)) hj)
    (by intro j u hj; simpa using congrArg (Option.map
      (goalEntry (update_current_side firstStart) goals)) hj)]
  refine congrArg some (List.map_congr_left ?_)
  intro u hu
  rcases Option.isSome_iff_exists.mp (hall u hu) with ⟨s, hs⟩
  simp [posEntry, goalEntry, worldDone, hs, dist_lt_apply2]

/-- C10: the guard compares only the counts, so when the number of
recorded states (possibly including agents outside the controllable
list) equals the number of requested agents while the key sets differ,
`step` does not short-circuit: it proceeds into the policy invocation,
the observation silently drops the controllable agents without a
recorded state (so it is strictly shorter than the request list), and
the done loop, indexed over the full controllable list, runs off the end
of the observation — an uncaught `IndexError`, embedded as `none`. -/
theorem C10_count_only_guard_misalignment (model : Model) (rexp : ℚ → ℚ)
    (noise : ℕ → List ℚ) (cfg : Config) (firstStart : Pose) (goals : AgentId → Pose)
    (vel_pubs : List AgentId) (states : List (AgentId × CurrentState))
    (prev_side : Side) (controllable : List AgentId)
    (hnd : controllable.Nodup)
    (hks : (states.map Prod.fst).Nodup)
    (hlen : states.length = controllable.length)
    (hne : (states.map Prod.fst).toFinset ≠ controllable.toFinset) :
    (step model rexp noise cfg firstStart goals vel_pubs states prev_side
        controllable).modelCalls = 1
    ∧ (build_obs (update_current_side firstStart) controllable states goals).pos.length
        = (knownOf states controllable).length
    ∧ (knownOf states controllable).length < controllable.length
    ∧ (step model rexp noise cfg firstStart goals vel_pubs states prev_side
        controllable).dones = none := by
  have hdrop : ∃ u ∈ controllable, ¬ ((List.lookup u states).isSome = true) := by
    by_contra hcon
    push_neg at hcon
    have hsub : controllable.toFinset ⊆ (states.map Prod.fst).toFinset := by
      intro u hu
      rw [List.mem_toFinset] at hu ⊢
      exact (lookup_isSome_iff u states).mp (hcon u hu)
    have hcards : ((states.map Prod.fst).toFinset).card = (controllable.toFinset).card := by
      rw [List.toFinset_card_of_nodup hks, List.toFinset_card_of_nodup hnd,
        List.length_map]
      exact hlen
    exact hne (Finset.eq_of_subset_of_card_le hsub (le_of_eq hcards)).symm
  have hklt : (knownOf states controllable).length < controllable.length := by
    rcases hdrop with ⟨u, hu, hnot⟩
    have hle := List.length_filter_le (fun a => (List.lookup a states).isSome) controllable
    rcases lt_or_eq_of_le hle with hlt | heq
    · exact hlt
    · exfalso
      have hself : List.filter (fun a => (List.lookup a states).isSome) controllable
          = controllable := (List.filter_sublist _).eq_of_length heq
      exact hnot (by simpa using List.filter_eq_self.mp hself u hu)
  have hcne : controllable ≠ [] := by
    intro hc
    subst hc
    have hs0 : states = [] := List.length_eq_zero.mp (by simpa using hlen)
    subst hs0
    exact hne rfl
  have hlens : (build_obs (update_current_side firstStart) controllable states
      goals).pos.length = (knownOf states controllable).length := by
    rw [build_obs_eq]
    simp
  refine ⟨?_, hlens, hklt, ?_⟩
  · rw [step_main model rexp noise cfg firstStart goals vel_pubs states prev_side
      controllable hlen]
  · rw [step_main model rexp noise cfg firstStart goals vel_pubs states prev_side
      controllable hlen]
    exact dones_loop_none cfg.goal_reached_dist _ _ controllable 0 hcne
      (by rw [hlens]; omega)

/-- C8: the feature row handed to the opaque policy is, per agent, the
concatenation of `(goal - pos)`, `pos` and `(pos + vel)` in that order —
a 6-dimensional row — and the policy is invoked with exactly the
positions, that feature tensor and the scalar communication range, one
sampler call per returned logit column. -/
theorem C8_policy_input (model : Model) (rexp : ℚ → ℚ) (cr mv : ℚ)
    (noise : ℕ → List ℚ) (ps vs gs : List (ℚ × ℚ))
    (hg : gs.length = ps.length) (hv : vs.length = ps.length) :
    obsFeatures ⟨ps, vs, gs⟩
      = (gs.zip (ps.zip vs)).map (fun gpv =>
          [gpv.1.1 - gpv.2.1.1, gpv.1.2 - gpv.2.1.2] ++ [gpv.2.1.1, gpv.2.1.2]
            ++ [gpv.2.1.1 + gpv.2.2.1, gpv.2.1.2 + gpv.2.2.2])
    ∧ (obsFeatures ⟨ps, vs, gs⟩).length = ps.length
    ∧ (∀ l ∈ obsFeatures ⟨ps, vs, gs⟩, l.length = 6)
    ∧ run_model model rexp cr mv noise ⟨ps, vs, gs⟩
        = (sample_actions rexp mv noise 0 (model ps (obsFeatures ⟨ps, vs, gs⟩) cr),
           (model ps (obsFeatures ⟨ps, vs, gs⟩) cr).length) := by
  refine ⟨by simp [obsFeatures], ?_, ?_, rfl⟩
  · simp only [obsFeatures, List.length_map, List.length_zip]
    omega
  · intro l hl
    simp only [obsFeatures, List.mem_map] at hl
    rcases hl with ⟨a, _, rfl⟩
    rfl

/-- C9: the action sampler splits each even-width logit row exactly in
half into a mean and a log-std, the drawn sample is
`mean + exp(log_std) * noise` componentwise, and the returned action is
that sample clamped to `[-maxVelocity, maxVelocity]` — so for every
possible draw every component of the returned action lies inside the
velocity bound, as a pure function of the one row and its own noise. -/
theorem C9_sampler_clamped (rexp : ℚ → ℚ) (max_v : ℚ) (logit noise : List ℚ)
    (k : ℕ) (hk : logit.length = 2 * k) (hmv : 0 ≤ max_v) :
    sample_action_from_logit rexp max_v logit noise
      = ((logit.take k).zip ((logit.drop k).zip noise)).map
          (fun m => clip (m.1 + rexp m.2.1 * m.2.2) (-max_v) max_v)
    ∧ ∀ x ∈ sample_action_from_logit rexp max_v logit noise, |x| ≤ max_v := by
  constructor
  · have hn : (logit.length + 1) / 2 = k := by omega
    simp only [sample_action_from_logit, hn, List.map_map]
    rfl
  · intro x hx
    simp only [sample_action_from_logit, List.mem_map] at hx
    rcases hx with ⟨a, _, rfl⟩
    exact abs_clip_le _ hmv

/-- C2 witness: one recorded state, two requested agents. -/
theorem C2_witness :
    (([("a", (⟨[0, 0, 0, 0, 0]⟩ : CurrentState))].map Prod.fst).Nodup
      ∧ ([("a", (⟨[0, 0, 0, 0, 0]⟩ : CurrentState))].map Prod.fst).toFinset
          ⊂ (["a", "b"] : List AgentId).toFinset)
    ∧ ((step (fun _ _ _ => []) (fun q => q) (fun _ => []) ⟨2, 3 / 2, 1, 1 / 4⟩
          ⟨0, 0⟩ (fun _ => ⟨0, 0⟩) [] [("a", ⟨[0, 0, 0, 0, 0]⟩)] Side.identity
          ["a", "b"]).dones
        = some ((["a", "b"] : List AgentId).map fun a => (a, false))
      ∧ (step (fun _ _ _ => []) (fun q => q) (fun _ => []) ⟨2, 3 / 2, 1, 1 / 4⟩
          ⟨0, 0⟩ (fun _ => ⟨0, 0⟩) [] [("a", ⟨[0, 0, 0, 0, 0]⟩)] Side.identity
          ["a", "b"]).published = []
      ∧ (step (fun _ _ _ => []) (fun q => q) (fun _ => []) ⟨2, 3 / 2, 1, 1 / 4⟩
          ⟨0, 0⟩ (fun _ => ⟨0, 0⟩) [] [("a", ⟨[0, 0, 0, 0, 0]⟩)] Side.identity
          ["a", "b"]).modelCalls = 0
      ∧ (step (fun _ _ _ => []) (fun q => q) (fun _ => []) ⟨2, 3 / 2, 1, 1 / 4⟩
          ⟨0, 0⟩ (fun _ => ⟨0, 0⟩) [] [("a", ⟨[0, 0, 0, 0, 0]⟩)] Side.identity
          ["a", "b"]).samplerCalls = 0
      ∧ (step (fun _ _ _ => []) (fun q => q) (fun _ => []) ⟨2, 3 / 2, 1, 1 / 4⟩
          ⟨0, 0⟩ (fun _ => ⟨0, 0⟩) [] [("a", ⟨[0, 0, 0, 0, 0]⟩)] Side.identity
          ["a", "b"]).filterCalls = 0) :=
  ⟨⟨by decide, by decide⟩,
    C2_strict_subset_short_circuit (fun _ _ _ => []) (fun q => q) (fun _ => [])
      ⟨2, 3 / 2, 1, 1 / 4⟩ ⟨0, 0⟩ (fun _ => ⟨0, 0⟩) [] [("a", ⟨[0, 0, 0, 0, 0]⟩)]
      Side.identity ["a", "b"] (by decide) (by decide)⟩

/-- C3 witness: the reference scenario — agent at the origin, goal at
`(0.2, 0)`, threshold `0.25` — yields `done = true` through `step`. -/
theorem C3_witness :
    (([("a1", (⟨[0, 0, 0, 0, 0]⟩ : CurrentState))].length
        = (["a1"] : List AgentId).length)
      ∧ (∀ u ∈ (["a1"] : List AgentId),
          (List.lookup u [("a1", (⟨[0, 0, 0, 0, 0]⟩ : CurrentState))]).isSome = true))
    ∧ (step (fun _ _ _ => [[0, 0, 0, 0]]) (fun q => q) (fun _ => [0, 0])
        ⟨2, 3 / 2, 1, 1 / 4⟩ ⟨0, 0⟩ (fun _ => ⟨1 / 5, 0⟩) []
        [("a1", ⟨[0, 0, 0, 0, 0]⟩)] Side.identity ["a1"]).dones
      = some [("a1", true)] :=
  ⟨⟨by decide, by decide⟩,
    ((C3_done_flags (fun _ _ _ => [[0, 0, 0, 0]]) (fun q => q) (fun _ => [0, 0])
        ⟨2, 3 / 2, 1, 1 / 4⟩ ⟨0, 0⟩ (fun _ => ⟨1 / 5, 0⟩) []
        [("a1", ⟨[0, 0, 0, 0, 0]⟩)] Side.identity ["a1"] (by decide)
        (by decide)).1).trans (by norm_num [worldDone, dist_lt, statePos, goalPt])⟩

/-- C8 witness: a single agent at position `(1, 2)` with velocity
`(3, 4)` and goal `(5, 6)` yields the feature row `[4, 4, 1, 2, 4, 6]`. -/
theorem C8_witness :
    (([((5 : ℚ), (6 : ℚ))] : List (ℚ × ℚ)).length
        = ([((1 : ℚ), (2 : ℚ))] : List (ℚ × ℚ)).length
    ∧ ([((3 : ℚ), (4 : ℚ))] : List (ℚ × ℚ)).length
        = ([((1 : ℚ), (2 : ℚ))] : List (ℚ × ℚ)).length)
    ∧ obsFeatures ⟨[(1, 2)], [(3, 4)], [(5, 6)]⟩ = [[4, 4, 1, 2, 4, 6]]
    ∧ (obsFeatures ⟨[(1, 2)], [(3, 4)], [(5, 6)]⟩
        = (([((5 : ℚ), (6 : ℚ))] : List (ℚ × ℚ)).zip
            (([((1 : ℚ), (2 : ℚ))] : List (ℚ × ℚ)).zip [((3 : ℚ), (4 : ℚ))])).map
            (fun gpv =>
              [gpv.1.1 - gpv.2.1.1, gpv.1.2 - gpv.2.1.2] ++ [gpv.2.1.1, gpv.2.1.2]
                ++ [gpv.2.1.1 + gpv.2.2.1, gpv.2.1.2 + gpv.2.2.2])
      ∧ (obsFeatures ⟨[(1, 2)], [(3, 4)], [(5, 6)]⟩).length
          = ([((1 : ℚ), (2 : ℚ))] : List (ℚ × ℚ)).length
      ∧ (∀ l ∈ obsFeatures ⟨[(1, 2)], [(3, 4)], [(5, 6)]⟩, l.length = 6)
      ∧ run_model (fun _ x _ => x) (fun q => q) 2 (3 / 2) (fun _ => [])
          ⟨[(1, 2)], [(3, 4)], [(5, 6)]⟩
        = (sample_actions (fun q => q) (3 / 2) (fun _ => []) 0
            ((fun _ x _ => x) [((1 : ℚ), (2 : ℚ))]
              (obsFeatures ⟨[(1, 2)], [(3, 4)], [(5, 6)]⟩) 2),
           ((fun _ x _ => x) [((1 : ℚ), (2 : ℚ))]
              (obsFeatures ⟨[(1, 2)], [(3, 4)], [(5, 6)]⟩) 2).length)) :=
  ⟨⟨by decide, by decide⟩, by norm_num [obsFeatures],
    C8_policy_input (fun _ x _ => x) (fun q => q) 2 (3 / 2) (fun _ => [])
      [(1, 2)] [(3, 4)] [(5, 6)] (by decide) (by decide)⟩

/-- C9 witness: an even logit row `[1, 0, 0, 2]` splits into mean
`[1, 0]` and log-std `[0, 2]`, and every returned component respects the
bound `3/2`. -/
theorem C9_witness :
    (([(1 : ℚ), 0, 0, 2].length = 2 * 2) ∧ ((0 : ℚ) ≤ 3 / 2))
    ∧ (sample_action_from_logit (fun q => q) (3 / 2) [1, 0, 0, 2] [1, 1]
        = (([(1 : ℚ), 0, 0, 2].take 2).zip
            (([(1 : ℚ), 0, 0, 2].drop 2).zip [1, 1])).map
            (fun m => clip (m.1 + (fun q => q) m.2.1 * m.2.2) (-(3 / 2)) (3 / 2))
      ∧ ∀ x ∈ sample_action_from_logit (fun q => q) (3 / 2) [1, 0, 0, 2] [1, 1],
          |x| ≤ 3 / 2) :=
  ⟨⟨by decide, by norm_num⟩,
    C9_sampler_clamped (fun q => q) (3 / 2) [1, 0, 0, 2] [1, 1] 2 (by decide)
      (by norm_num)⟩

/-- C10 witness: states recorded for `a` and the foreign agent `c`,
request for `a` and `b` — counts match, sets differ, the policy runs and
the done loop overruns. -/
theorem C10_witness :
    ((["a", "b"] : List AgentId).Nodup
      ∧ ([("a", (⟨[0, 0, 0, 0, 0]⟩ : CurrentState)),
          ("c", (⟨[0, 0, 0, 0, 0]⟩ : CurrentState))].map Prod.fst).Nodup
      ∧ ([("a", (⟨[0, 0, 0, 0, 0]⟩ : CurrentState)),
          ("c", (⟨[0, 0, 0, 0, 0]⟩ : CurrentState))].length
            = (["a", "b"] : List AgentId).length)
      ∧ (([("a", (⟨[0, 0, 0, 0, 0]⟩ : CurrentState)),
          ("c", (⟨[0, 0, 0, 0, 0]⟩ : CurrentState))].map Prod.fst).toFinset
            ≠ (["a", "b"] : List AgentId).toFinset))
    ∧ ((step (fun _ _ _ => [[0, 0, 0, 0]]) (fun q => q) (fun _ => [0, 0])
          ⟨2, 3 / 2, 1, 1 / 4⟩ ⟨0, 0⟩ (fun _ => ⟨0, 0⟩) []
          [("a", ⟨[0, 0, 0, 0, 0]⟩), ("c", ⟨[0, 0, 0, 0, 0]⟩)] Side.identity
          ["a", "b"]).modelCalls = 1
      ∧ (build_obs (update_current_side ⟨0, 0⟩) ["a", "b"]
          [("a", ⟨[0, 0, 0, 0, 0]⟩), ("c", ⟨[0, 0, 0, 0, 0]⟩)]
          (fun _ => ⟨0, 0⟩)).pos.length
            = (knownOf [("a", ⟨[0, 0, 0, 0, 0]⟩), ("c", ⟨[0, 0, 0, 0, 0]⟩)]
                ["a", "b"]).length
      ∧ (knownOf [("a", ⟨[0, 0, 0, 0, 0]⟩), ("c", ⟨[0, 0, 0, 0, 0]⟩)]
            ["a", "b"]).length < (["a", "b"] : List AgentId).length
      ∧ (step (fun _ _ _ => [[0, 0, 0, 0]]) (fun q => q) (fun _ => [0, 0])
          ⟨2, 3 / 2, 1, 1 / 4⟩ ⟨0, 0⟩ (fun _ => ⟨0, 0⟩) []
          [("a", ⟨[0, 0, 0, 0, 0]⟩), ("c", ⟨[0, 0, 0, 0, 0]⟩)] Side.identity
          ["a", "b"]).dones = none) :=
  ⟨⟨by decide, by decide, by decide, by decide⟩,
    C10_count_only_guard_misalignment (fun _ _ _ => [[0, 0, 0, 0]]) (fun q => q)
      (fun _ => [0, 0]) ⟨2, 3 / 2, 1, 1 / 4⟩ ⟨0, 0⟩ (fun _ => ⟨0, 0⟩) []
      [("a", ⟨[0, 0, 0, 0, 0]⟩), ("c", ⟨[0, 0, 0, 0, 0]⟩)] Side.identity
      ["a", "b"] (by decide) (by decide) (by decide) (by decide)⟩

end Passage
